import Mathlib

/-!
Verification of the spaced-repetition scheduling engine of
`src/services/spaced_repetition.py` (class `SpacedRepetitionService`).

The embedding is shallow:
- timestamps (`datetime`) are modelled as `Int` seconds since the epoch,
  `timedelta(days = d)` as `d * 86400` seconds, and `datetime.date()` as
  `dateOf` (the midnight starting the day containing the timestamp);
- the floating-point `ease_factor` is modelled as `ℚ` with exact arithmetic
  (all constants of the source, 1.3, 2.5, 0.2 and 0.15, are exact decimals);
- Python `int(x)` truncation on the product `review_count * new_ease_factor`
  is modelled as `Int.floor`, which agrees with truncation because the
  product is positive in the branch where it is computed (`review_count ≥ 2`
  and the clamped ease factor is at least 1.3);
- the SQLAlchemy session is modelled as an explicit `DB` value holding the
  relevant rows, and `update_review_performance`, which can raise
  `ValueError`, returns the mutated `DB` paired with an `Except` result.
-/

/-- Seconds in one day: `timedelta(days = 1)`. -/
def secondsPerDay : Int := 86400

/-- The midnight (00:00:00 UTC) starting the day that contains `t`:
the model of `datetime.utcnow().date()` applied to timestamp `t`. -/
def dateOf (t : Int) : Int := secondsPerDay * (Int.fdiv t secondsPerDay)

/-- `SpacedRepetitionService.INITIAL_INTERVAL` (days). -/
def INITIAL_INTERVAL : Int := 1

/-- `SpacedRepetitionService.MIN_EASE_FACTOR`. -/
def MIN_EASE_FACTOR : ℚ := 1.3

/-- `SpacedRepetitionService.MAX_EASE_FACTOR`. -/
def MAX_EASE_FACTOR : ℚ := 2.5

/-- `SpacedRepetitionService.EASY_FACTOR`, the initial ease factor. -/
def EASY_FACTOR : ℚ := 2.5

/-- Performance level constants of the source. -/
def PERFORMANCE_AGAIN : Int := 0

/-- `SpacedRepetitionService.PERFORMANCE_HARD`. -/
def PERFORMANCE_HARD : Int := 1

/-- `SpacedRepetitionService.PERFORMANCE_GOOD`. -/
def PERFORMANCE_GOOD : Int := 2

/-- `SpacedRepetitionService.PERFORMANCE_EASY`. -/
def PERFORMANCE_EASY : Int := 3

/-- `SpacedRepetitionService.PROFICIENCY_NEW`. -/
def PROFICIENCY_NEW : ℕ := 0

/-- `SpacedRepetitionService.PROFICIENCY_LEARNING`. -/
def PROFICIENCY_LEARNING : ℕ := 1

/-- `SpacedRepetitionService.PROFICIENCY_FAMILIAR`. -/
def PROFICIENCY_FAMILIAR : ℕ := 2

/-- `SpacedRepetitionService.PROFICIENCY_MASTERED`. -/
def PROFICIENCY_MASTERED : ℕ := 3

/-- `SpacedRepetitionService._calculate_ease_factor`: adjust the ease factor
by the performance score and clamp it to `[MIN_EASE_FACTOR, MAX_EASE_FACTOR]`.
An unrecognised score falls through the `else` branch and leaves the ease
factor unchanged before clamping, exactly as the source does. -/
def calculate_ease_factor (performance_score : Int) (current_ease_factor : ℚ) : ℚ :=
  let new_ease_factor :=
    if performance_score = PERFORMANCE_HARD then current_ease_factor - 0.2
    else if performance_score = PERFORMANCE_GOOD then current_ease_factor
    else if performance_score = PERFORMANCE_EASY then current_ease_factor + 0.15
    else current_ease_factor
  max MIN_EASE_FACTOR (min MAX_EASE_FACTOR new_ease_factor)

/-- `SpacedRepetitionService.calculate_next_review`: the SM-2 style update.
Returns `(next_review_date, new_ease_factor, new_review_count)`. The `now`
that the source reads from `datetime.utcnow()` is passed explicitly. -/
def calculate_next_review (performance_score : Int) (current_ease_factor : ℚ)
    (review_count : ℕ) (now : Int) : Int × ℚ × ℕ :=
  if performance_score = PERFORMANCE_AGAIN then
    (now + INITIAL_INTERVAL * secondsPerDay, current_ease_factor, 0)
  else
    let new_ease_factor := calculate_ease_factor performance_score current_ease_factor
    let interval : Int :=
      if review_count = 0 then 1
      else if review_count = 1 then 6
      else Int.floor ((review_count : ℚ) * new_ease_factor)
    (now + interval * secondsPerDay, new_ease_factor, review_count + 1)

/-- `SpacedRepetitionService.get_proficiency_level`. The `ease_factor`
argument is accepted by the source but never used. -/
def get_proficiency_level (review_count : ℕ) (ease_factor : ℚ) : ℕ :=
  if review_count = 0 then PROFICIENCY_NEW
  else if review_count < 5 then PROFICIENCY_LEARNING
  else if review_count < 10 then PROFICIENCY_FAMILIAR
  else PROFICIENCY_MASTERED

/-- The per-item scheduling state (`ReviewState` of the spec; the scheduling
columns of the `spaced_repetition` table). -/
structure ReviewState where
  ease_factor : ℚ
  review_count : ℕ
  proficiency_level : ℕ
  next_review_date : Int
deriving DecidableEq, Repr

/-- The spec's `recordReview`: the state transition that
`update_review_performance` applies to a loaded record — compute
`calculate_next_review`, then recompute the proficiency level from the new
review count. -/
def recordReview (state : ReviewState) (performance_score : Int) (now : Int) : ReviewState :=
  let r := calculate_next_review performance_score state.ease_factor state.review_count now
  { ease_factor := r.2.1
    review_count := r.2.2
    proficiency_level := get_proficiency_level r.2.2 r.2.1
    next_review_date := r.1 }

/-- A row of the `spaced_repetition` table (the columns the service touches). -/
structure SpacedRepetition where
  user_id : ℕ
  vocabulary_id : ℕ
  proficiency_level : ℕ
  next_review_date : Int
  review_count : ℕ
  ease_factor : ℚ
deriving DecidableEq, Repr

/-- A row of the `review_sessions` audit table. `session_date` carries the
database-side `func.now()` default. -/
structure ReviewSession where
  user_id : ℕ
  vocabulary_id : ℕ
  session_date : Int
  performance_score : Int
  time_spent : Int
deriving DecidableEq, Repr

/-- A row of the `vocabulary` table (the columns the service touches). -/
structure Vocabulary where
  id : ℕ
  user_id : ℕ
deriving DecidableEq, Repr

/-- The database state visible to the service. -/
structure DB where
  spaced_repetitions : List SpacedRepetition
  review_sessions : List ReviewSession
  vocabularies : List Vocabulary
deriving DecidableEq, Repr

/-- The row filter of `update_review_performance`:
`user_id == user_id and vocabulary_id == vocabulary_id`. -/
def matchesKey (user_id vocabulary_id : ℕ) (sr : SpacedRepetition) : Bool :=
  sr.user_id == user_id && sr.vocabulary_id == vocabulary_id

/-- The in-place mutation `update_review_performance` performs on the loaded
record: new scheduling values from `calculate_next_review`, proficiency
recomputed from the new review count. -/
def applyReview (sr : SpacedRepetition) (performance_score : Int) (now : Int) :
    SpacedRepetition :=
  let r := calculate_next_review performance_score sr.ease_factor sr.review_count now
  { sr with
      next_review_date := r.1
      ease_factor := r.2.1
      review_count := r.2.2
      proficiency_level := get_proficiency_level r.2.2 r.2.1 }

/-- Replace the first list element satisfying `p` (the ORM mutates the one
row returned by `.first()`). -/
def replaceFirst (p : SpacedRepetition → Bool) (v : SpacedRepetition) :
    List SpacedRepetition → List SpacedRepetition
  | [] => []
  | s :: rest => if p s then v :: rest else s :: replaceFirst p v rest

/-- `SpacedRepetitionService.update_review_performance`: load the record for
`(user_id, vocabulary_id)`; if none exists raise
`ValueError("Spaced repetition record not found")` leaving the database
untouched; otherwise update the record and append one `ReviewSession` audit
row, both in a single commit. The result pairs the database after the call
with the raised-or-returned outcome. -/
def update_review_performance (db : DB) (user_id vocabulary_id : ℕ)
    (performance_score : Int) (time_spent : Int) (now : Int) :
    DB × Except String SpacedRepetition :=
  match db.spaced_repetitions.find? (matchesKey user_id vocabulary_id) with
  | none => (db, Except.error "Spaced repetition record not found")
  | some sr =>
      let sr' := applyReview sr performance_score now
      ({ db with
          spaced_repetitions :=
            replaceFirst (matchesKey user_id vocabulary_id) sr' db.spaced_repetitions
          review_sessions := db.review_sessions ++
            [{ user_id := user_id
               vocabulary_id := vocabulary_id
               session_date := now
               performance_score := performance_score
               time_spent := time_spent }] },
       Except.ok sr')

/-- `SpacedRepetitionService.get_today_reviews`: filter the user's
spaced-repetition rows by `next_review_date <= today`, where `today` is
`datetime.utcnow().date()` — the SQL comparison of a datetime column with a
date coerces the date to midnight — then return the vocabulary rows whose id
is among the filtered rows' vocabulary ids. -/
def get_today_reviews (db : DB) (user_id : ℕ) (now : Int) : List Vocabulary :=
  let today := dateOf now
  let spaced_reps := db.spaced_repetitions.filter
    (fun sr => sr.user_id == user_id && decide (sr.next_review_date ≤ today))
  let vocabulary_ids := spaced_reps.map (fun sr => sr.vocabulary_id)
  db.vocabularies.filter (fun v => vocabulary_ids.contains v.id)

/-- Claim C3: for every state and every now, a score of 0 ("again") resets
`review_count` to 0, keeps `ease_factor` exactly unchanged, schedules the
next review one day after `now`, and reclassifies the item as NEW. -/
theorem c3_again_resets (state : ReviewState) (now : Int) :
    recordReview state 0 now =
      { ease_factor := state.ease_factor
        review_count := 0
        proficiency_level := PROFICIENCY_NEW
        next_review_date := now + secondsPerDay } := by
  simp [recordReview, calculate_next_review, get_proficiency_level,
    PERFORMANCE_AGAIN, INITIAL_INTERVAL]

/-- Claim C8: on a pass outcome the new ease factor is the clamp to
`[1.3, 2.5]` of `ease_factor - 0.2` for hard (1), of `ease_factor` unchanged
for good (2), and of `ease_factor + 0.15` for easy (3). -/
theorem c8_pass_ease_adjustment (state : ReviewState) (now : Int) :
    (recordReview state 1 now).ease_factor =
      max 1.3 (min 2.5 (state.ease_factor - 0.2)) ∧
    (recordReview state 2 now).ease_factor =
      max 1.3 (min 2.5 state.ease_factor) ∧
    (recordReview state 3 now).ease_factor =
      max 1.3 (min 2.5 (state.ease_factor + 0.15)) := by
  refine ⟨?_, ?_, ?_⟩ <;>
    simp [recordReview, calculate_next_review, calculate_ease_factor,
      MIN_EASE_FACTOR, MAX_EASE_FACTOR,
      PERFORMANCE_AGAIN, PERFORMANCE_HARD, PERFORMANCE_GOOD, PERFORMANCE_EASY]

/-- Claim C6: proficiency is a pure function of `review_count` alone — the
`ease_factor` argument is ignored — classification is 0 → NEW, 1..4 →
LEARNING, 5..9 → FAMILIAR, ≥ 10 → MASTERED, and after every `recordReview`
the stored proficiency is the classification of the post-update
`review_count`. -/
theorem c6_proficiency_pure_classification :
    (∀ rc ef ef', get_proficiency_level rc ef = get_proficiency_level rc ef') ∧
    (∀ state score now,
      (recordReview state score now).proficiency_level =
        get_proficiency_level (recordReview state score now).review_count
          (recordReview state score now).ease_factor) ∧
    (∀ ef, get_proficiency_level 0 ef = PROFICIENCY_NEW) ∧
    (∀ rc ef, 1 ≤ rc → rc ≤ 4 → get_proficiency_level rc ef = PROFICIENCY_LEARNING) ∧
    (∀ rc ef, 5 ≤ rc → rc ≤ 9 → get_proficiency_level rc ef = PROFICIENCY_FAMILIAR) ∧
    (∀ rc ef, 10 ≤ rc → get_proficiency_level rc ef = PROFICIENCY_MASTERED) := by
  refine ⟨fun rc ef ef' => rfl, fun state score now => rfl, fun ef => rfl, ?_, ?_, ?_⟩
  all_goals
    intro rc ef
    intros
    simp only [get_proficiency_level, PROFICIENCY_NEW, PROFICIENCY_LEARNING,
      PROFICIENCY_FAMILIAR, PROFICIENCY_MASTERED]
    split_ifs <;> omega

/-- Claim C10: a performance score outside `{0, 1, 2, 3}` is not rejected by
`calculate_next_review`: it takes the pass branch and the `else` fallback of
`_calculate_ease_factor`, producing exactly the result of score 2 (good). -/
theorem c10_invalid_score_acts_as_good (current_ease_factor : ℚ) (review_count : ℕ)
    (performance_score now : Int)
    (h : ¬(performance_score = 0 ∨ performance_score = 1 ∨
           performance_score = 2 ∨ performance_score = 3)) :
    calculate_next_review performance_score current_ease_factor review_count now =
      calculate_next_review 2 current_ease_factor review_count now := by
  push_neg at h
  obtain ⟨h0, h1, h2, h3⟩ := h
  simp [calculate_next_review, calculate_ease_factor, PERFORMANCE_AGAIN,
    PERFORMANCE_HARD, PERFORMANCE_GOOD, PERFORMANCE_EASY, h0, h1, h2, h3]

/-- Witness for C10 at score 5. -/
theorem c10_witness :
    calculate_next_review 5 2.5 0 0 = calculate_next_review 2 2.5 0 0 :=
  c10_invalid_score_acts_as_good 2.5 0 5 0 (by decide)

/-- Counterexample to claim C1 as stated: with a matching record present,
`update_review_performance` called with the invalid score 5 and the negative
time -1 does not fail — it succeeds and returns an updated record (the score
is handled like "good"). -/
theorem c1_counterexample :
    (update_review_performance ⟨[⟨1, 1, 0, 0, 0, 2.5⟩], [], []⟩ 1 1 5 (-1) 0).2 =
      Except.ok ⟨1, 1, 1, 86400, 1, 2.5⟩ := by
  norm_num [update_review_performance, matchesKey, applyReview, calculate_next_review,
    calculate_ease_factor, get_proficiency_level, List.find?,
    PERFORMANCE_AGAIN, PERFORMANCE_HARD, PERFORMANCE_GOOD, PERFORMANCE_EASY,
    PROFICIENCY_LEARNING, MIN_EASE_FACTOR, MAX_EASE_FACTOR, INITIAL_INTERVAL, secondsPerDay]

/-- Claim C1 amended: the engine never raises `InvalidArgument` — the only
error `update_review_performance` can produce is the missing-record
`ValueError`, whatever the performance score or time spent, and that error
leaves the database unchanged. -/
theorem c1_only_missing_record_fails (db : DB) (user_id vocabulary_id : ℕ)
    (performance_score time_spent now : Int) (e : String)
    (h : (update_review_performance db user_id vocabulary_id
            performance_score time_spent now).2 = Except.error e) :
    e = "Spaced repetition record not found" ∧
    (update_review_performance db user_id vocabulary_id
        performance_score time_spent now).1 = db := by
  rcases hf : db.spaced_repetitions.find? (matchesKey user_id vocabulary_id) with
    _ | sr
  · simp [update_review_performance, hf] at h ⊢
    exact h.symm
  · simp [update_review_performance, hf] at h

/-- Witness for C1's amended theorem: on an empty database every call fails
with the missing-record error and changes nothing, here at score 5 and
negative time spent. -/
theorem c1_witness :
    "Spaced repetition record not found" = "Spaced repetition record not found" ∧
    (update_review_performance ⟨[], [], []⟩ 1 1 5 (-1) 0).1 = ⟨[], [], []⟩ :=
  c1_only_missing_record_fails ⟨[], [], []⟩ 1 1 5 (-1) 0
    "Spaced repetition record not found" (by rfl)

/-- The clamp `max MIN (min MAX q)` lands in `[MIN, MAX]` for every `q`. -/
theorem calculate_ease_factor_mem (performance_score : Int) (current_ease_factor : ℚ) :
    MIN_EASE_FACTOR ≤ calculate_ease_factor performance_score current_ease_factor ∧
    calculate_ease_factor performance_score current_ease_factor ≤ MAX_EASE_FACTOR := by
  unfold calculate_ease_factor
  refine ⟨le_max_left _ _, max_le ?_ (min_le_left _ _)⟩
  norm_num [MIN_EASE_FACTOR, MAX_EASE_FACTOR]

/-- One `recordReview` step keeps the ease factor in
`[MIN_EASE_FACTOR, MAX_EASE_FACTOR]`: the again branch keeps it unchanged
and every other branch clamps it. -/
theorem recordReview_ease_factor_mem (state : ReviewState) (performance_score now : Int)
    (h1 : MIN_EASE_FACTOR ≤ state.ease_factor)
    (h2 : state.ease_factor ≤ MAX_EASE_FACTOR) :
    MIN_EASE_FACTOR ≤ (recordReview state performance_score now).ease_factor ∧
    (recordReview state performance_score now).ease_factor ≤ MAX_EASE_FACTOR := by
  by_cases h : performance_score = PERFORMANCE_AGAIN
  · simp [recordReview, calculate_next_review, h]
    exact ⟨h1, h2⟩
  · simp [recordReview, calculate_next_review, h]
    exact calculate_ease_factor_mem performance_score state.ease_factor

/-- Claim C2: starting from an ease factor in `[1.3, 2.5]`, every state
reached along any finite sequence of reviews with valid scores — every entry
of the `scanl` of `recordReview` over the sequence — has its ease factor in
`[1.3, 2.5]`. Each review is a pair `(performance score, now)`. -/
theorem c2_ease_factor_clamped (init : ReviewState) (reviews : List (Int × Int))
    (h1 : MIN_EASE_FACTOR ≤ init.ease_factor)
    (h2 : init.ease_factor ≤ MAX_EASE_FACTOR)
    (hvalid : ∀ r ∈ reviews, r.1 = 0 ∨ r.1 = 1 ∨ r.1 = 2 ∨ r.1 = 3) :
    ∀ s ∈ reviews.scanl (fun st r => recordReview st r.1 r.2) init,
      MIN_EASE_FACTOR ≤ s.ease_factor ∧ s.ease_factor ≤ MAX_EASE_FACTOR := by
  induction reviews generalizing init with
  | nil =>
      intro s hs
      simp only [List.scanl_nil, List.mem_singleton] at hs
      subst hs
      exact ⟨h1, h2⟩
  | cons r rest ih =>
      intro s hs
      simp only [List.scanl_cons, List.singleton_append, List.mem_cons] at hs
      rcases hs with hs | hs
      · subst hs
        exact ⟨h1, h2⟩
      · have hstep := recordReview_ease_factor_mem init r.1 r.2 h1 h2
        exact ih (recordReview init r.1 r.2) hstep.1 hstep.2
          (fun q hq => hvalid q (List.mem_cons_of_mem r hq)) s hs

/-- Witness for C2: the initial state of a one-review sequence, with a valid
starting ease factor. -/
theorem c2_witness :
    MIN_EASE_FACTOR ≤ (⟨2.5, 0, 0, 0⟩ : ReviewState).ease_factor ∧
    (⟨2.5, 0, 0, 0⟩ : ReviewState).ease_factor ≤ MAX_EASE_FACTOR :=
  c2_ease_factor_clamped ⟨2.5, 0, 0, 0⟩ [(2, 0)]
    (by norm_num [MIN_EASE_FACTOR]) (by norm_num [MAX_EASE_FACTOR])
    (by intro r hr; simp at hr; simp [hr])
    ⟨2.5, 0, 0, 0⟩ (by simp [List.scanl_cons])

/-- Claim C4: on a pass outcome (score 1, 2 or 3) the interval comes from
the pre-update `review_count` — 1 day at count 0, 6 days at count 1,
`⌊review_count * new_ease_factor⌋` days at count ≥ 2 — the next review date
is `now` plus that many days, and the review count goes up by exactly 1. -/
theorem c4_pass_interval (state : ReviewState) (performance_score now : Int)
    (h : performance_score = 1 ∨ performance_score = 2 ∨ performance_score = 3) :
    (recordReview state performance_score now).next_review_date =
      now + (if state.review_count = 0 then 1
             else if state.review_count = 1 then 6
             else Int.floor ((state.review_count : ℚ) *
               calculate_ease_factor performance_score state.ease_factor)) *
        secondsPerDay ∧
    (recordReview state performance_score now).review_count =
      state.review_count + 1 := by
  have hne : ¬performance_score = PERFORMANCE_AGAIN := by
    rcases h with h | h | h <;> simp [h, PERFORMANCE_AGAIN]
  constructor <;> simp [recordReview, calculate_next_review, hne]

/-- Witness for C4 at score 3 on a state with review count 2. -/
theorem c4_witness :
    (recordReview ⟨2.5, 2, 1, 0⟩ 3 0).next_review_date =
      0 + (if (2 : ℕ) = 0 then 1
           else if (2 : ℕ) = 1 then 6
           else Int.floor (((2 : ℕ) : ℚ) * calculate_ease_factor 3 2.5)) *
        secondsPerDay ∧
    (recordReview ⟨2.5, 2, 1, 0⟩ 3 0).review_count = 2 + 1 :=
  c4_pass_interval ⟨2.5, 2, 1, 0⟩ 3 0 (by norm_num)

/-- The scheduled date of a pass outcome, read off `calculate_next_review`. -/
theorem calculate_next_review_fst (performance_score : Int) (current_ease_factor : ℚ)
    (review_count : ℕ) (now : Int) (h : ¬performance_score = PERFORMANCE_AGAIN) :
    (calculate_next_review performance_score current_ease_factor review_count now).1 =
      now + (if review_count = 0 then 1
             else if review_count = 1 then 6
             else Int.floor ((review_count : ℚ) *
               calculate_ease_factor performance_score current_ease_factor)) *
        secondsPerDay := by
  simp [calculate_next_review, h]

/-- Claim C7: for every state with an in-range ease factor and every valid
performance score, the next review date is strictly after `now` — the
computed interval is at least one day. -/
theorem c7_due_date_in_future (state : ReviewState) (performance_score now : Int)
    (h1 : MIN_EASE_FACTOR ≤ state.ease_factor)
    (h2 : state.ease_factor ≤ MAX_EASE_FACTOR)
    (hvalid : performance_score = 0 ∨ performance_score = 1 ∨
      performance_score = 2 ∨ performance_score = 3) :
    now < (recordReview state performance_score now).next_review_date := by
  have hnext : (recordReview state performance_score now).next_review_date =
      (calculate_next_review performance_score state.ease_factor
        state.review_count now).1 := rfl
  rw [hnext]
  by_cases h : performance_score = PERFORMANCE_AGAIN
  · simp only [calculate_next_review, h, if_pos, INITIAL_INTERVAL, secondsPerDay,
      if_true, eq_self_iff_true]
    omega
  · rw [calculate_next_review_fst performance_score state.ease_factor
      state.review_count now h]
    have hintv : (1 : Int) ≤
        (if state.review_count = 0 then 1
         else if state.review_count = 1 then 6
         else Int.floor ((state.review_count : ℚ) *
           calculate_ease_factor performance_score state.ease_factor)) := by
      split_ifs with hc0 hc1
      · exact le_refl 1
      · norm_num
      · have hrc2 : 2 ≤ state.review_count := by omega
        have hrcq : (2 : ℚ) ≤ (state.review_count : ℚ) := by exact_mod_cast hrc2
        have hef := (calculate_ease_factor_mem performance_score state.ease_factor).1
        have h13 : (1.3 : ℚ) ≤
            calculate_ease_factor performance_score state.ease_factor := by
          simpa [MIN_EASE_FACTOR] using hef
        have hone : (1 : ℚ) ≤ (state.review_count : ℚ) *
            calculate_ease_factor performance_score state.ease_factor := by
          nlinarith
        exact Int.le_floor.mpr (by exact_mod_cast hone)
    have h86 : (86400 : Int) ≤
        (if state.review_count = 0 then 1
         else if state.review_count = 1 then 6
         else Int.floor ((state.review_count : ℚ) *
           calculate_ease_factor performance_score state.ease_factor)) *
          secondsPerDay := by
      have : (86400 : Int) = 1 * 86400 := by norm_num
      simp only [secondsPerDay]
      nlinarith
    linarith

/-- Witness for C7 at score 2 on a fresh state. -/
theorem c7_witness : (0 : Int) < (recordReview ⟨2.5, 0, 0, 0⟩ 2 0).next_review_date :=
  c7_due_date_in_future ⟨2.5, 0, 0, 0⟩ 2 0
    (by norm_num [MIN_EASE_FACTOR]) (by norm_num [MAX_EASE_FACTOR]) (by norm_num)

/-- Claim C9: `update_review_performance` is atomic in the embedding — on the
error path the database is returned untouched and no audit row exists; on the
success path exactly one `ReviewSession` row carrying the given score, time
spent and timestamp is appended, and the returned record is the loaded record
updated by the scheduling computation. -/
theorem c9_atomicity (db : DB) (user_id vocabulary_id : ℕ)
    (performance_score time_spent now : Int) :
    (∀ e, (update_review_performance db user_id vocabulary_id
            performance_score time_spent now).2 = Except.error e →
      (update_review_performance db user_id vocabulary_id
          performance_score time_spent now).1 = db) ∧
    (∀ sr, (update_review_performance db user_id vocabulary_id
            performance_score time_spent now).2 = Except.ok sr →
      (update_review_performance db user_id vocabulary_id
          performance_score time_spent now).1.review_sessions =
        db.review_sessions ++
          [⟨user_id, vocabulary_id, now, performance_score, time_spent⟩] ∧
      ∃ sr0, db.spaced_repetitions.find? (matchesKey user_id vocabulary_id) =
          some sr0 ∧
        sr = applyReview sr0 performance_score now ∧
        (update_review_performance db user_id vocabulary_id
            performance_score time_spent now).1.spaced_repetitions =
          replaceFirst (matchesKey user_id vocabulary_id) sr
            db.spaced_repetitions) := by
  rcases hf : db.spaced_repetitions.find? (matchesKey user_id vocabulary_id) with
    _ | sr0
  · constructor
    · intro e he
      simp [update_review_performance, hf]
    · intro sr hsr
      simp [update_review_performance, hf] at hsr
  · constructor
    · intro e he
      simp [update_review_performance, hf] at he
    · intro sr hsr
      simp only [update_review_performance, hf] at hsr ⊢
      simp only [Except.ok.injEq] at hsr
      subst hsr
      exact ⟨trivial, sr0, rfl, rfl, rfl⟩

/-- Counterexample to claim C5 as stated: an item due at 86460 (00:01 on day
one) is at or before the query time 90000 (01:00 on day one), yet
`get_today_reviews` does not return it — the source compares the due date
against `datetime.utcnow().date()`, i.e. midnight, not the query time. -/
theorem c5_counterexample :
    (86460 : Int) ≤ 90000 ∧
    get_today_reviews ⟨[⟨1, 1, 0, 86460, 0, 2.5⟩], [], [⟨1, 1⟩]⟩ 1 90000 = [] := by
  constructor
  · norm_num
  · norm_num [get_today_reviews, dateOf, secondsPerDay, Int.fdiv, List.filter]

/-- Claim C5 amended: `get_today_reviews` returns exactly the vocabulary
items that have a spaced-repetition row of the user whose `next_review_date`
is at or before the midnight starting the day of the query (`dateOf now`),
not the query instant itself. -/
theorem c5_due_cutoff_is_midnight (db : DB) (user_id : ℕ) (now : Int)
    (v : Vocabulary) :
    v ∈ get_today_reviews db user_id now ↔
      v ∈ db.vocabularies ∧
      ∃ sr ∈ db.spaced_repetitions, sr.user_id = user_id ∧
        sr.vocabulary_id = v.id ∧ sr.next_review_date ≤ dateOf now := by
  simp only [get_today_reviews, List.mem_filter, List.contains_iff_exists_mem_beq,
    List.mem_map, List.mem_filter, Bool.and_eq_true, beq_iff_eq,
    decide_eq_true_eq]
  constructor
  · rintro ⟨hv, x, ⟨sr, ⟨hsr, hu, hd⟩, hx⟩, hvx⟩
    exact ⟨hv, sr, hsr, hu, by rw [hx, hvx], hd⟩
  · rintro ⟨hv, sr, hsr, hu, hvid, hd⟩
    exact ⟨hv, sr.vocabulary_id, ⟨sr, ⟨hsr, hu, hd⟩, rfl⟩, hvid.symm⟩
